import Mathlib

/-!
Verification development for the SGA-v2 relic-tool library
(src/relic/sga/v2/serialization.py and src/relic/sga/v2/filesystem.py).

The Python source is shallowly embedded: machine integers become Nat or Int
with explicit bounds or modular reduction where overflow matters, Python
strings become lists of characters, raising code returns an Except value,
and in-place mutation is modelled by functions returning the updated value.
Each definition is annotated with the source location it embeds.
-/

/-- Python exception outcomes observable from the embedded code.
Each constructor stands for one exception class raised by the source or by
the Python runtime (fs.errors and relic.core.errors for the library ones). -/
inductive PyError where
  | resourceNotFound
  | directoryExpected
  | fileExpected
  | fileExists
  | directoryExists
  | resourceError
  | invalidPath
  | operationFailed
  | driveExists
  | removeRootError
  | relicToolError
  | unknownDialect
  | overflowError
  | typeError
  | attributeError
  | indexError
  | keyError
  | recursionError
deriving DecidableEq, Repr

/-- Modelled from the spec: relic.sga.core.definitions.StorageType (external to
src/): per-file codec selector with codes STORE=0, DEFLATE_BUFFER=1,
DEFLATE_STREAM=2 (spec sections 3 and 4.C). -/
inductive StorageType where
  | store
  | deflateBuffer
  | deflateStream
deriving DecidableEq, Repr

/-- The numeric code of a storage type (the value of the Python enum member). -/
def StorageType.toNat : StorageType → Nat
  | .store => 0
  | .deflateBuffer => 1
  | .deflateStream => 2

/-- The Python enum constructor StorageType(value): fails (ValueError) for a
code outside 0, 1, 2; modelled as an Option. -/
def StorageType.ofNat? (n : Nat) : Option StorageType :=
  if n = 0 then some .store
  else if n = 1 then some .deflateBuffer
  else if n = 2 then some .deflateStream
  else none

/-- serialization.py lines 259-266, property storage_type of _SgaTocFileV2:
read the flags field, mask with _STORAGE_TYPE_MASK = 0xF0, shift right by
_STORAGE_TYPE_SHIFT = 4, and pass the result to the StorageType enum. -/
def storage_type (flags : Nat) : Option StorageType :=
  StorageType.ofNat? ((flags &&& 0xF0) >>> 4)

/-- serialization.py lines 268-275, setter of storage_type: shift the code
left by 4, clear the masked bits of the stored flags value and or the shifted
code in.  Python evaluates buffer_value &= ~0xF0 on a non-negative int, which
clears bits 4..7; on Nat that is subtraction of flags &&& 0xF0. -/
def set_storage_type (flags : Nat) (value : StorageType) : Nat :=
  (flags - (flags &&& 0xF0)) ||| (value.toNat <<< 4)

/-- serialization.py lines 74-80, RelicUnixTimeSerializer.pack:
int(value).to_bytes(4, "little", signed=True).  The conversion raises
OverflowError outside [-2^31, 2^31); in range it produces the four
little-endian bytes of value mod 2^32. -/
def RelicUnixTimeSerializer.pack (value : Int) : Except PyError (List Nat) :=
  if -2147483648 ≤ value ∧ value < 2147483648 then
    let m : Nat := (value % 4294967296).toNat
    .ok [m % 256, m / 256 % 256, m / 65536 % 256, m / 16777216 % 256]
  else .error .overflowError

/-- serialization.py lines 82-84, RelicUnixTimeSerializer.unpack:
int.from_bytes(buffer, "little", signed=False), the little-endian value of
the bytes. -/
def RelicUnixTimeSerializer.unpack (buffer : List Nat) : Nat :=
  buffer.foldr (fun b acc => acc * 256 + b) 0

/-- serialization.py lines 181-190, SgaTocHeaderV2: the four (offset, count)
pairs of the TOC header, drive [0..6), folder [6..12), file [12..18),
name [18..24).  Offsets are u32, counts u16. -/
structure SgaTocHeaderV2 where
  drivePos : Nat
  driveCount : Nat
  folderPos : Nat
  folderCount : Nat
  filePos : Nat
  fileCount : Nat
  namePos : Nat
  nameCount : Nat
deriving DecidableEq, Repr

/-- Modelled from the spec: the core SgaTocHeader (relic.sga.core.serialization,
not under src/) exposes the drive sub-area also under the name root_folder;
drive records are the root folders of the archive (spec section 3, TOC header
and root-folder slot; the core SgaToc likewise returns the drive table from its
root_folders accessor). -/
def SgaTocHeaderV2.rootFolderPos (h : SgaTocHeaderV2) : Nat :=
  h.drivePos

/-- serialization.py lines 474-495, SgaTocV2._determine_next_header_block_ptr:
starting from toc_end, take the smallest of the folder, root-folder, file and
name sub-area offsets that is strictly greater than index. -/
def _determine_next_header_block_ptr (header : SgaTocHeaderV2) (toc_end : Nat)
    (index : Int) : Nat :=
  [header.folderPos, header.rootFolderPos, header.filePos, header.namePos].foldl
    (fun (smallest ptr : Nat) =>
      if index < (ptr : Int) ∧ (ptr : Int) < (smallest : Int) then ptr
      else smallest)
    toc_end

/-- serialization.py lines 457-460, SgaV2GameFormat. -/
inductive SgaV2GameFormat where
  | DawnOfWar
  | ImpossibleCreatures
  | Unknown
deriving DecidableEq, Repr

/-- serialization.py line 519: the per-record size of the file table, the block
size divided by the file count.  Python divides two ints into a 64-bit float;
for the possible operand ranges (block size below 2^32, count below 2^16) the
float equals the integer 20 or 17 exactly iff the rational quotient does, so
the rational quotient is a faithful model of the comparison. -/
def file_def_size (header : SgaTocHeaderV2) (toc_end : Nat) : Rat :=
  let file_block_end := _determine_next_header_block_ptr header toc_end (header.filePos : Int)
  let file_block_size : Int := (file_block_end : Int) - (header.filePos : Int)
  ((file_block_size : Rat) / (header.fileCount : Rat))

/-- serialization.py lines 497-530, SgaTocV2._determine_game: file count 0
gives Unknown; otherwise the per-record size is matched against the
GAME_FORMAT_TOC_FILE table in insertion order, Dawn of War (record size 20)
then Impossible Creatures (record size 17); any other quotient raises
RelicToolError saying the game format could not be determined. -/
def _determine_game (header : SgaTocHeaderV2) (toc_end : Nat) :
    Except PyError SgaV2GameFormat :=
  if header.fileCount = 0 then .ok .Unknown
  else
    if file_def_size header toc_end = 20 then .ok .DawnOfWar
    else if file_def_size header toc_end = 17 then .ok .ImpossibleCreatures
    else .error .unknownDialect

/-- serialization.py lines 278-284 and 213-257, SgaTocFileV2Dow: one TOC file
record (name offset u32, flags u32, data offset u32, compressed size u32,
decompressed size u32).  The Impossible Creatures dialect differs only in the
width of the flags field. -/
structure SgaTocFileEntryV2 where
  name_offset : Nat
  flags : Nat
  data_offset : Nat
  compressed_size : Nat
  decompressed_size : Nat
deriving DecidableEq, Repr

/-- serialization.py line 321: LazySgaTocFileDataHeaderV2Dow.Meta.SIZE, the
byte size of a per-file data header (256-byte name + 4-byte modified +
4-byte crc). -/
def dataHeaderSize : Nat := 264

/-- serialization.py lines 600-608, SgaFileV2.__determine_expected_data_window_size:
file count times the data-header size plus the sum of the compressed sizes,
accumulated over the file table. -/
def __determine_expected_data_window_size (files : List SgaTocFileEntryV2) : Nat :=
  let total_header_size := files.length * dataHeaderSize
  let total_data_size := files.foldl (fun acc f => acc + f.compressed_size) 0
  total_header_size + total_data_size

/-- The two data-header flags of a parsed archive. -/
structure SgaFileV2Flags where
  has_file_data_header : Bool
  has_safe_file_data_header : Bool
deriving DecidableEq, Repr

/-- serialization.py lines 581-595, SgaFileV2.__init__: the data window runs
from meta.data_pos to the end of the stream; the flags compare the expected
data size with the window length. -/
def SgaFileV2_init_flags (files : List SgaTocFileEntryV2) (data_pos data_end : Nat) :
    SgaFileV2Flags :=
  let data_size : Int := (data_end : Int) - (data_pos : Int)
  let expected : Int := (__determine_expected_data_window_size files : Int)
  { has_file_data_header := decide (expected ≤ data_size)
    has_safe_file_data_header := decide (expected = data_size) }

/-- serialization.py lines 317-326, the raw bytes of a lazy per-file data
header: name field [0..256), modified field [256..260), crc field [260..264). -/
structure LazySgaTocFileDataHeaderV2Dow where
  nameBytes : List Nat
  modifiedBytes : List Nat
  crcBytes : List Nat
deriving DecidableEq, Repr

/-- Modelled from the spec: CStringConverter with the ascii encoding and NUL
padding (relic.core.lazyio, not under src/): decode reads the fixed-length
buffer, truncates at the first padding byte and decodes (spec section 4.A);
the ascii codec accepts exactly the bytes below 128, so decoding fails iff a
retained byte is 128 or larger. -/
def cstringDecodeAscii (buffer : List Nat) : Option (List Nat) :=
  let truncated := buffer.takeWhile (fun b => b ≠ 0)
  if truncated.all (fun b => b < 128) then some truncated else none

/-- serialization.py lines 333-337 and 339-347: the crc32 and modified reads of
a data header decode an unsigned little-endian u32; int.from_bytes cannot
fail, so these reads are total. -/
def dataHeaderReadCrc32 (h : LazySgaTocFileDataHeaderV2Dow) : Nat :=
  h.crcBytes.foldr (fun b acc => acc * 256 + b) 0

/-- serialization.py lines 339-347: the modified read goes through
RelicUnixTimeSerializer.unpack, which is total. -/
def dataHeaderReadModified (h : LazySgaTocFileDataHeaderV2Dow) : Nat :=
  RelicUnixTimeSerializer.unpack h.modifiedBytes

/-- serialization.py lines 354-383, LazySgaTocFileDataHeaderV2Dow.header_is_valid:
reading the name returns False on RelicToolError or UnicodeDecodeError; the
crc32 and modified reads are guarded the same way but cannot fail (their
converters are total), so the function returns True exactly when the name
decodes. -/
def header_is_valid (h : LazySgaTocFileDataHeaderV2Dow) : Bool :=
  match cstringDecodeAscii h.nameBytes with
  | none => false
  | some _ => true

/-- serialization.py lines 297-311, MemSgaTocFileDataHeaderV2Dow: an in-memory
data header. -/
structure MemSgaTocFileDataHeaderV2Dow where
  name : String
  crc32 : Nat
  modified : Nat
deriving DecidableEq, Repr

/-- The data-header backing chosen by SgaTocFileDataV2Dow.__init__: either the
lazy on-disk header or a synthesized in-memory one. -/
inductive SgaTocFileDataHeaderChoice where
  | lazy (h : LazySgaTocFileDataHeaderV2Dow)
  | mem (m : MemSgaTocFileDataHeaderV2Dow)
deriving DecidableEq, Repr

/-- serialization.py lines 394-426, SgaTocFileDataV2Dow.__init__: keep the lazy
header when the archive has a safe data-header area, or when it has one at all
and the header validates; otherwise synthesize an in-memory header via
MemSgaTocFileDataHeaderV2Dow.create from the TOC name, the crc32 of the
decompressed payload and the current time.  crc32Hash abstracts the external
relic.sga.core.hashtools.crc32.hash primitive, now the current clock reading;
tocName is name_window.get_name(toc_file.name_offset) and payload the bytes of
self.data(True). -/
def SgaTocFileDataV2Dow_init (crc32Hash : List Nat → Nat) (now : Nat)
    (tocName : String) (payload : List Nat)
    (has_data_header has_safe_data_header : Bool)
    (lazyHeader : LazySgaTocFileDataHeaderV2Dow) : SgaTocFileDataHeaderChoice :=
  if has_safe_data_header || (has_data_header && header_is_valid lazyHeader) then
    .lazy lazyHeader
  else
    .mem { name := tocName, crc32 := crc32Hash payload, modified := now }

/-- The validity predicate exactly as the claim under test states it: the name
decodes, the crc32 and modified fields decode (always true for the total u32
readers), and the decoded name is printable ASCII (codes 32..126). -/
def claimedHeaderValidity (h : LazySgaTocFileDataHeaderV2Dow) : Bool :=
  match cstringDecodeAscii h.nameBytes with
  | none => false
  | some name => name.all (fun c => 32 ≤ c && c ≤ 126)

/-! ## The virtual filesystem (src/relic/sga/v2/filesystem.py)

Python strings are embedded as lists of characters so that the character
level operations of SgaPathResolver (indexing, splitting) are structural. -/

/-- A Python string, as a list of characters. -/
abbrev PyStr := List Char

/-- Python str.split(sep) for a one-character separator: splits on every
occurrence, producing empty pieces for adjacent separators, and yields a
single empty piece for the empty string. -/
def pySplit (sep : Char) : PyStr → List PyStr
  | [] => [[]]
  | c :: rest =>
    match pySplit sep rest with
    | [] => [[]]
    | part :: parts =>
      if c = sep then [] :: part :: parts else (c :: part) :: parts

/-- Python str.split(sep, maxsplit=1) when the separator occurs: the text
before the first occurrence and everything after it; none when absent. -/
def pySplitOnce (sep : Char) : PyStr → Option (PyStr × PyStr)
  | [] => none
  | c :: rest =>
    if c = sep then some ([], rest)
    else
      match pySplitOnce sep rest with
      | none => none
      | some (a, b) => some (c :: a, b)

/-- filesystem.py lines 102-104, SgaPathResolver.fix_seperator: replace every
backslash with a forward slash. -/
def fix_seperator (path : PyStr) : PyStr :=
  path.map (fun c => if c = '\\' then '/' else c)

/-- filesystem.py lines 94-100, SgaPathResolver.parse: when the path contains
a colon, split at the first colon into alias and rest; otherwise no alias. -/
def SgaPathResolver.parse (path : PyStr) : Option PyStr × PyStr :=
  match pySplitOnce ':' path with
  | none => (none, path)
  | some (a, rest) => (some a, rest)

/-- filesystem.py lines 106-112, SgaPathResolver.split_parts: fix separators,
split on the slash, and replace a leading empty part by the root part when the
fixed path starts with a slash.  Indexing path[0] raises IndexError on the
empty path. -/
def split_parts (path : PyStr) : Except PyError (List PyStr) :=
  let fixed := fix_seperator path
  let parts := pySplit '/' fixed
  match parts with
  | [] => .ok parts
  | p0 :: rest =>
    if p0 = [] then
      match fixed with
      | [] => .error .indexError
      | c :: _ => .ok ((if c = '/' then ['/'] else p0) :: rest)
    else .ok (p0 :: rest)

/-- filesystem.py lines 115-125, the loop of SgaPathResolver.join.  Each part
is passed through fix_seperator by the generator when the loop consumes it; a
None part raises AttributeError inside fix_seperator, and part[0] raises
IndexError on an empty part. -/
def joinLoop (result : PyStr) : List (Option PyStr) → Except PyError PyStr
  | [] => .ok result
  | none :: _ => .error .attributeError
  | some rawPart :: rest =>
    let part := fix_seperator rawPart
    match part with
    | [] => .error .indexError
    | c :: _ =>
      if c = '/' ∨ result = [] then joinLoop part rest
      else if result.getLast? ≠ some '/' then joinLoop (result ++ ['/'] ++ part) rest
      else joinLoop (result ++ part) rest

/-- filesystem.py lines 114-128, SgaPathResolver.join: run the loop, then
prepend the root when add_root is set and the result is empty or does not
start with a slash. -/
def SgaPathResolver.join (parts : List (Option PyStr)) (add_root : Bool) :
    Except PyError PyStr := do
  let result ← joinLoop [] parts
  if add_root ∧ (result = [] ∨ result.head? ≠ some '/') then .ok ('/' :: result)
  else .ok result

/-- filesystem.py lines 130-136, SgaPathResolver.split: split_parts, then the
join of all but the last part together with the last part. -/
def SgaPathResolver.split (path : PyStr) : Except PyError (PyStr × PyStr) := do
  let parts ← split_parts path
  match parts with
  | [] => .ok ([], path)
  | p0 :: rest => do
    let parent ← SgaPathResolver.join (((p0 :: rest).dropLast).map some) false
    .ok (parent, (p0 :: rest).getLast (List.cons_ne_nil p0 rest))

/-- filesystem.py lines 82-92, SgaPathResolver.build: join the positional path
arguments, then when a truthy alias keyword is given, root the joined path and
prefix alias and colon.  The positional arguments may contain None (the
source passes the parsed alias positionally at line 818), which raises when
fix_seperator runs. -/
def SgaPathResolver.build (path : List (Option PyStr)) (aliasOpt : Option PyStr) :
    Except PyError PyStr := do
  let full ← SgaPathResolver.join path false
  match aliasOpt with
  | none => .ok full
  | some a =>
    if a = [] then .ok full
    else
      let full2 := if full = [] then ['/']
        else if full.head? ≠ some '/' then '/' :: full
        else full
      .ok (a ++ [':'] ++ full2)

/-- filesystem.py lines 236-269, SgaFsFileV2Mem state: name, storage type, the
BytesIO buffer (which exposes no name attribute), the recorded size, the
modified slot and the crc32 slot. -/
structure SgaFsFileV2Mem where
  name : PyStr
  storage_type : StorageType
  handleData : List Nat
  size : Nat
  modified : Option Int
  crc32 : Nat
deriving DecidableEq, Repr

/-- filesystem.py lines 237-269, SgaFsFileV2Mem.__init__: the storage type
defaults to STORE, the size is the byte length of the written data, the crc
slot defaults to the crc32 of the data, and the modified slot is written from
the inverted conditional time.time() if modified is not None else modified,
so a supplied time is replaced by the current clock and an absent one stays
None.  crc32Hash and now abstract the external crc32 primitive and clock. -/
def SgaFsFileV2Mem.init (crc32Hash : List Nat → Nat) (now : Int) (name : PyStr)
    (storage_type : Option StorageType) (data : List Nat) (modified : Option Int)
    (crc : Option Nat) : SgaFsFileV2Mem :=
  { name := name
    storage_type := storage_type.getD .store
    handleData := data
    size := data.length
    modified := match modified with
      | some _ => some now
      | none => none
    crc32 := match crc with
      | some c => c
      | none => crc32Hash data }

/-- filesystem.py lines 172-182 and serialization.py lines 394-445: the state a
lazy file wraps, condensed: the TOC record fields it reads and its
SgaTocFileDataV2Dow view (name, resolved data header, payload bytes served by
data()). -/
structure SgaFsFileV2Lazy where
  name : PyStr
  decompressed_size : Nat
  compressed_size : Nat
  storage_type : StorageType
  header : SgaTocFileDataHeaderChoice
  payload : List Nat
deriving DecidableEq, Repr

/-- filesystem.py lines 325-341, SgaFsFileV2: the wrapper holds either a lazy
or an in-memory backing. -/
inductive SgaFsFileV2 where
  | lazy (b : SgaFsFileV2Lazy)
  | mem (b : SgaFsFileV2Mem)
deriving DecidableEq, Repr

/-- The basic info namespace: name and is_dir. -/
structure InfoBasic where
  name : PyStr
  is_dir : Bool
deriving DecidableEq, Repr

/-- The details info namespace: resource type code, size, modified. -/
structure InfoDetails where
  type : Nat
  size : Nat
  modified : Option Int
deriving DecidableEq, Repr

/-- The essence entries: crc32 and storage type. -/
structure InfoEssence where
  crc32 : Nat
  storage_type : StorageType
deriving DecidableEq, Repr

/-- An Info result: the basic namespace plus optional details and essence. -/
structure Info where
  basic : InfoBasic
  details : Option InfoDetails := none
  essence : Option InfoEssence := none
deriving DecidableEq, Repr

/-- filesystem.py lines 279-288, SgaFsFileV2Mem.getinfo: when details is
requested, build_ns_details receives self._handle.name as the size argument;
BytesIO has no name attribute, so the call raises AttributeError.  Otherwise
basic (and essence when requested) is returned. -/
def SgaFsFileV2Mem.getinfo (b : SgaFsFileV2Mem) (namespaces : List String) :
    Except PyError Info :=
  if "details" ∈ namespaces then .error .attributeError
  else
    .ok { basic := { name := b.name, is_dir := false }
          essence := if "essence" ∈ namespaces then
              some { crc32 := b.crc32, storage_type := b.storage_type }
            else none }

/-- filesystem.py lines 187-201, SgaFsFileV2Lazy.getinfo: the details branch
evaluates self._data_info.header().modified and the essence branch
self._data_info.header().crc32; header is a property whose value is a
data-header object, which is not callable, so either branch raises TypeError.
With neither namespace requested, basic is returned. -/
def SgaFsFileV2Lazy.getinfo (b : SgaFsFileV2Lazy) (namespaces : List String) :
    Except PyError Info :=
  if "details" ∈ namespaces then .error .typeError
  else if "essence" ∈ namespaces then .error .typeError
  else .ok { basic := { name := b.name, is_dir := false } }

/-- filesystem.py lines 360-361: the wrapper getinfo delegates to the backing. -/
def SgaFsFileV2.getinfo : SgaFsFileV2 → List String → Except PyError Info
  | .lazy b, ns => SgaFsFileV2Lazy.getinfo b ns
  | .mem b, ns => SgaFsFileV2Mem.getinfo b ns

/-- The value set carried by a setinfo mapping for files: an optional details
namespace with a modified value, and an optional essence namespace with
optional crc32 and storage_type entries (read with dict.get defaults). -/
structure InfoMapping where
  detailsModified : Option Int := none
  hasDetails : Bool := false
  essenceCrc32 : Option Nat := none
  essenceStorageType : Option StorageType := none
  hasEssence : Bool := false
deriving DecidableEq, Repr

/-- filesystem.py lines 290-298, SgaFsFileV2Mem.setinfo: store the modified
value when details is present, and update crc32 and storage_type from the
essence namespace with the current values as defaults. -/
def SgaFsFileV2Mem.setinfo (b : SgaFsFileV2Mem) (info : InfoMapping) :
    SgaFsFileV2Mem :=
  let b1 := if info.hasDetails then { b with modified := info.detailsModified } else b
  if info.hasEssence then
    { b1 with crc32 := info.essenceCrc32.getD b1.crc32
              storage_type := info.essenceStorageType.getD b1.storage_type }
  else b1

/-- filesystem.py lines 346-358, SgaFsFileV2._convert_to_memfile: return
immediately when already in-memory; otherwise read
getinfo([details, essence]) from the backing (which raises TypeError, see
SgaFsFileV2Lazy.getinfo), open the backing for read and build the in-memory
file from the gathered metadata. -/
def SgaFsFileV2._convert_to_memfile (crc32Hash : List Nat → Nat) (now : Int) :
    SgaFsFileV2 → Except PyError SgaFsFileV2
  | .mem b => .ok (.mem b)
  | .lazy b => do
    let info ← SgaFsFileV2Lazy.getinfo b ["details", "essence"]
    match info.details, info.essence with
    | some d, some e =>
      .ok (.mem (SgaFsFileV2Mem.init crc32Hash now info.basic.name
        (some e.storage_type) b.payload d.modified (some e.crc32)))
    | _, _ => .error .keyError

/-- filesystem.py lines 363-365, SgaFsFileV2.setinfo: promote, then call
self.setinfo(info) again - the wrapper method re-enters itself instead of
delegating to the backing.  The fuel argument bounds the Python call stack;
exhausting it is the RecursionError the interpreter raises. -/
def SgaFsFileV2.setinfo (crc32Hash : List Nat → Nat) (now : Int) :
    Nat → SgaFsFileV2 → InfoMapping → Except PyError SgaFsFileV2
  | 0, _, _ => .error .recursionError
  | fuel + 1, f, info => do
    let f2 ← SgaFsFileV2._convert_to_memfile crc32Hash now f
    SgaFsFileV2.setinfo crc32Hash now fuel f2 info

/-- The node tree of the virtual filesystem.  A node is a wrapped file
(filesystem.py SgaFsFileV2), a materialized folder (SgaFsFolderV2Mem, lines
426-474: name plus the combined children map and the folder and file maps,
Python dicts embedded as insertion-ordered association lists), or a lazy
folder (SgaFsFolderV2Lazy, lines 477-548: its memoized name-to-node lookup
maps, which the source computes once by slicing the archive-wide arrays with
the record ranges).  The SgaFsFolderV2 wrapper (lines 551-611) is identified
with its backing; its is-lazy flag is the constructor. -/
inductive SgaFsNode where
  | file (f : SgaFsFileV2)
  | memFolder (name : PyStr) (children : List (PyStr × SgaFsNode))
      (folders : List (PyStr × SgaFsNode)) (files : List (PyStr × SgaFsNode))
  | lazyFolder (name : PyStr) (filesLookup : List (PyStr × SgaFsNode))
      (foldersLookup : List (PyStr × SgaFsNode))

/-- Association-list lookup for node maps (Python dict read). -/
def assocFind (l : List (PyStr × SgaFsNode)) (key : PyStr) : Option SgaFsNode :=
  match l with
  | [] => none
  | (k, v) :: rest => if k = key then some v else assocFind rest key

/-- The name of a node: for files the backing name (filesystem.py lines
275-277), for folders the stored or window-decoded name. -/
def SgaFsNode.nodeName : SgaFsNode → PyStr
  | .file (.lazy b) => b.name
  | .file (.mem b) => b.name
  | .memFolder n _ _ _ => n
  | .lazyFolder n _ _ => n

/-- getinfo("basic").is_dir of a node: false for files, true for folders
(filesystem.py lines 189, 441, 497). -/
def SgaFsNode.is_dir : SgaFsNode → Bool
  | .file _ => false
  | _ => true

/-- filesystem.py lines 427-428, 515-520, 610-611, get_child: the combined
children map for a materialized folder; for a lazy folder the files lookup is
consulted first, then the folders lookup; a file has no children. -/
def SgaFsNode.get_child : SgaFsNode → PyStr → Option SgaFsNode
  | .memFolder _ children _ _, name => assocFind children name
  | .lazyFolder _ fl fo, name =>
    (match assocFind fl name with
     | some x => some x
     | none => assocFind fo name)
  | .file _, _ => none

/-- filesystem.py lines 446-463, SgaFsFolderV2Mem._add_child as invoked by
add_file and add_folder: both call sites pass self._files as the alt_lookup
(for add_folder, line 463, passing _files instead of _folders is the slip the
spec flags), so a successful insert writes the combined children map and the
files map, never the folders map.  Collisions: FileExists when the name is in
_files, DirectoryExists when in _folders, ResourceError otherwise.  On a lazy
folder, add_file and add_folder raise RelicToolError (lines 502-510); on the
wrapper they are reached only after promotion. -/
def memFolderAddChild (n : SgaFsNode) (name : PyStr) (resource : SgaFsNode) :
    Except PyError SgaFsNode :=
  match n with
  | .memFolder fname children folders files =>
    if (assocFind children name).isSome then
      if (assocFind files name).isSome then .error .fileExists
      else if (assocFind folders name).isSome then .error .directoryExists
      else .error .resourceError
    else
      .ok (.memFolder fname (children ++ [(name, resource)]) folders
        (files ++ [(name, resource)]))
  | _ => .error .relicToolError

/-- filesystem.py lines 569-578, SgaFsFolderV2._convert_to_memfolder: the
source reassigns self._backing to the fresh materialized folder before the
migration loops run, so the loops iterate over the new empty backing and every
child of the lazy folder is dropped. -/
def _convert_to_memfolder : SgaFsNode → SgaFsNode
  | .lazyFolder name _ _ => .memFolder name [] [] []
  | n => n

/-- filesystem.py lines 595-597, SgaFsFolderV2.add_folder: promote, then
delegate to the backing add_folder, which is _add_child with the folder name
and self._files as alt_lookup. -/
def SgaFsFolderV2.add_folder (n : SgaFsNode) (folder : SgaFsNode) :
    Except PyError SgaFsNode :=
  memFolderAddChild (_convert_to_memfolder n) folder.nodeName folder

/-- filesystem.py lines 591-593, SgaFsFolderV2.add_file: promote, then
_add_child with the file name and self._files. -/
def SgaFsFolderV2.add_file (n : SgaFsNode) (file : SgaFsNode) :
    Except PyError SgaFsNode :=
  memFolderAddChild (_convert_to_memfolder n) file.nodeName file

/-- filesystem.py lines 465-471, the folders and files accessors of a
materialized folder: the values of the respective maps. -/
def SgaFsNode.foldersList : SgaFsNode → List SgaFsNode
  | .memFolder _ _ folders _ => folders.map (fun kv => kv.2)
  | _ => []

/-- filesystem.py line 470: list(self._files.values()). -/
def SgaFsNode.filesList : SgaFsNode → List SgaFsNode
  | .memFolder _ _ _ files => files.map (fun kv => kv.2)
  | _ => []

/-- filesystem.py lines 614-676: a drive (lazy or materialized) as seen by the
filesystem: name, alias and root folder node. -/
structure SgaFsDriveV2 where
  name : PyStr
  driveAlias : PyStr
  root : SgaFsNode

/-- filesystem.py lines 692-707, SgaFsV2 state: the drives dict, keyed by
alias in insertion order. -/
structure SgaFsV2 where
  drives : List (PyStr × SgaFsDriveV2)

/-- Association lookup in the drives dict. -/
def drivesFind (l : List (PyStr × SgaFsDriveV2)) (key : PyStr) :
    Option SgaFsDriveV2 :=
  match l with
  | [] => none
  | (k, v) :: rest => if k = key then some v else drivesFind rest key

/-- filesystem.py lines 736-740, SgaFsV2.add_drive: DriveExistsError when the
alias is taken, otherwise register the drive. -/
def SgaFsV2.add_drive (s : SgaFsV2) (d : SgaFsDriveV2) : Except PyError SgaFsV2 :=
  if (drivesFind s.drives d.driveAlias).isSome then .error .driveExists
  else .ok { drives := s.drives ++ [(d.driveAlias, d)] }

/-- filesystem.py lines 731-734 and 659-663, SgaFsV2.create_drive:
SgaFsDriveV2Mem.__init__ builds its root with SgaFsFolderV2(), passing neither
a lazy nor a mem backing, and SgaFsFolderV2.__init__ (lines 561-564) raises
RelicToolError for that, so create_drive always raises before the drive is
registered. -/
def SgaFsV2.create_drive (_s : SgaFsV2) (_name _driveAlias : PyStr) :
    Except PyError (SgaFsV2 × SgaFsDriveV2) :=
  .error .relicToolError

/-- filesystem.py lines 777-783, the walk loop of _getnode_from_drive: on each
part, a missing current node raises ResourceNotFound, a non-directory raises
DirectoryExpected, otherwise descend through get_child. -/
def walkNode : Option SgaFsNode → List PyStr → Except PyError (Option SgaFsNode)
  | cur, [] => .ok cur
  | none, _ :: _ => .error .resourceNotFound
  | some n, part :: rest =>
    if n.is_dir then walkNode (n.get_child part) rest
    else .error .directoryExpected

/-- filesystem.py lines 773-787, SgaFsV2._getnode_from_drive: split the path,
walk from the drive root, and raise ResourceNotFound when exists is required
but the walk ended on nothing.  Also returns the parts for the callers that
mutate the reached node in place. -/
def _getnode_from_drive (d : SgaFsDriveV2) (path : PyStr) (exists_ : Bool) :
    Except PyError (List PyStr × Option SgaFsNode) := do
  let parts ← split_parts path
  let r ← walkNode (some d.root) parts
  if exists_ ∧ r.isNone then .error .resourceNotFound else .ok (parts, r)

/-- filesystem.py lines 797-803: the alias-less branch of _getnode tries each
drive in insertion order, skipping only ResourceNotFound. -/
def tryDrivesGetnode (path : PyStr) (exists_ : Bool) :
    List (PyStr × SgaFsDriveV2) →
    Except PyError (PyStr × List PyStr × Option SgaFsNode)
  | [] => .error .resourceNotFound
  | (a, d) :: rest =>
    match _getnode_from_drive d path exists_ with
    | .error .resourceNotFound => tryDrivesGetnode path exists_ rest
    | .error e => .error e
    | .ok (parts, r) => .ok (a, parts, r)

/-- filesystem.py lines 789-803, SgaFsV2._getnode: parse the path; with an
alias, look the drive up (ResourceNotFound when absent) and search it; without
one, try every drive.  The result carries the drive key and walked parts so
that in-place mutations of the returned node can be mirrored. -/
def SgaFsV2._getnode (s : SgaFsV2) (path : PyStr) (exists_ : Bool) :
    Except PyError (PyStr × List PyStr × Option SgaFsNode) :=
  match SgaPathResolver.parse path with
  | (some a, p) =>
    (match drivesFind s.drives a with
     | none => .error .resourceNotFound
     | some d => do
        let (parts, r) ← _getnode_from_drive d p exists_
        .ok (a, parts, r))
  | (none, p) => tryDrivesGetnode p exists_ s.drives

/-- fs.base.FS.opendir of the external pyfilesystem2 dependency, as invoked by
makedir and makedirs: it calls self.getinfo(path) - that is, _getnode with
exists, then node.getinfo(None) - and checks is_dir.  On a folder this
succeeds; on a file the getinfo call evaluates NS_DETAILS in None and raises
TypeError. -/
def opendirCheck (s : SgaFsV2) (path : PyStr) : Except PyError Unit := do
  let (_, _, n) ← SgaFsV2._getnode s path true
  match n with
  | some (.file _) => .error .typeError
  | some _ => .ok ()
  | none => .error .resourceNotFound

/-- filesystem.py lines 815-830, SgaFsV2._get_parent_and_child: parse, split
the in-drive path, and look the parent up by the path built from the alias
passed positionally (line 818) - so the alias is joined as a path part, or
raises inside fix_seperator when it is None.  A non-directory parent raises
ResourceNotFound. -/
def SgaFsV2._get_parent_and_child (s : SgaFsV2) (path : PyStr) :
    Except PyError (PyStr × List PyStr × SgaFsNode × PyStr) := do
  let (aliasOpt, p) := SgaPathResolver.parse path
  let (parentRel, child) ← SgaPathResolver.split p
  let parentPath ← SgaPathResolver.build [aliasOpt, some parentRel] none
  match SgaFsV2._getnode s parentPath true with
  | .error e => .error e
  | .ok (da, parts, some parent) =>
    if parent.is_dir then .ok (da, parts, parent, child)
    else .error .resourceNotFound
  | .ok (_, _, none) => .error .resourceNotFound

/-- Replace the value stored under a key, leaving other entries alone (the
functional image of mutating the object all aliased map entries share). -/
def setAssoc (l : List (PyStr × SgaFsNode)) (key : PyStr) (v : SgaFsNode) :
    List (PyStr × SgaFsNode) :=
  l.map (fun kv => if kv.1 = key then (kv.1, v) else kv)

/-- Mirror an in-place mutation of a child object: every map of the parent
that holds the child under that name sees the new value. -/
def replaceChild (n : SgaFsNode) (name : PyStr) (c : SgaFsNode) : SgaFsNode :=
  match n with
  | .memFolder nm ch fo fi =>
    .memFolder nm (setAssoc ch name c) (setAssoc fo name c) (setAssoc fi name c)
  | .lazyFolder nm fl fo => .lazyFolder nm (setAssoc fl name c) (setAssoc fo name c)
  | n => n

/-- Mirror an in-place mutation of the node reached by the given parts under a
root: rebuild the spine, leaving the tree unchanged when the walk fails. -/
def updateNodeAt (n : SgaFsNode) (parts : List PyStr) (newNode : SgaFsNode) :
    SgaFsNode :=
  match parts with
  | [] => newNode
  | part :: rest =>
    match n.get_child part with
    | none => n
    | some c => replaceChild n part (updateNodeAt c rest newNode)

/-- Mirror an in-place mutation of a node inside one drive of the filesystem. -/
def updateDriveRoot (s : SgaFsV2) (key : PyStr) (parts : List PyStr)
    (newNode : SgaFsNode) : SgaFsV2 :=
  { drives := s.drives.map (fun kd =>
      if kd.1 = key then
        (kd.1, { kd.2 with root := updateNodeAt kd.2.root parts newNode })
      else kd) }

/-- filesystem.py lines 832-857, SgaFsV2.makedir.  The drive branch (path of
the form alias:/) calls create_drive, which raises RelicToolError out of the
SgaFsDriveV2Mem constructor (only DriveExistsError would be caught).  The
folder branch finds the parent, adds a materialized empty folder, swallows
DirectoryExists when recreate is set, rethrows FileExists as DirectoryExpected,
and finally returns self.opendir(path).  The returned state carries any
mutation performed before an exception. -/
def SgaFsV2.makedir (s : SgaFsV2) (path : PyStr) (recreate : Bool) :
    SgaFsV2 × Except PyError Unit :=
  match SgaPathResolver.parse path with
  | (aliasOpt, p) =>
    if aliasOpt.isSome ∧ p = ['/'] then (s, .error .relicToolError)
    else
      match SgaFsV2._get_parent_and_child s path with
      | .error e => (s, .error e)
      | .ok (da, parts, parent, childName) =>
        match SgaFsFolderV2.add_folder parent (.memFolder childName [] [] []) with
        | .ok parent2 =>
          let s2 := updateDriveRoot s da parts parent2
          (s2, opendirCheck s2 path)
        | .error .directoryExists =>
          if recreate then (s, opendirCheck s path)
          else (s, .error .directoryExists)
        | .error .fileExists => (s, .error .directoryExpected)
        | .error e => (s, .error e)

/-- filesystem.py lines 82-92 as called with no positional parts (lines 861,
872): build(alias=x) is the empty join, rooted and prefixed when the alias is
truthy. -/
def build_alias_only (aliasOpt : Option PyStr) : PyStr :=
  match aliasOpt with
  | none => []
  | some a => if a = [] then [] else a ++ [':', '/']

/-- filesystem.py lines 859-882, SgaFsV2.makedirs: with an alias, makedir the
drive root when recreate is set, else opendir it; without one, opendir the
single drive when exactly one exists, raise OperationFailed with none and
InvalidPath with several.  The method ends there - the parsed remainder of
the path is never used and no intermediate folder is ever created. -/
def SgaFsV2.makedirs (s : SgaFsV2) (path : PyStr) (recreate : Bool) :
    SgaFsV2 × Except PyError Unit :=
  match SgaPathResolver.parse path with
  | (aliasOpt, _p) =>
    let alias_path := build_alias_only aliasOpt
    match aliasOpt with
    | some _ =>
      if recreate then SgaFsV2.makedir s alias_path true
      else (s, opendirCheck s alias_path)
    | none =>
      match s.drives with
      | [(k, _)] => (s, opendirCheck s (build_alias_only (some k)))
      | [] => (s, .error .operationFailed)
      | _ => (s, .error .invalidPath)

/-! ## Concrete fixtures used by the claim theorems and witnesses -/

/-- A TOC header whose file table (offset 174, 2 records) is followed by the
name table at 214: per-record size 40 / 2 = 20, the Dawn of War layout. -/
def exampleHeaderDow : SgaTocHeaderV2 := ⟨24, 1, 162, 1, 174, 2, 214, 5⟩

/-- A TOC header with the name table at 208: per-record size 34 / 2 = 17, the
Impossible Creatures layout. -/
def exampleHeaderIC : SgaTocHeaderV2 := ⟨24, 1, 162, 1, 174, 2, 208, 5⟩

/-- A TOC header with an empty file table. -/
def exampleHeaderEmpty : SgaTocHeaderV2 := ⟨24, 1, 162, 1, 174, 0, 208, 5⟩

/-- A TOC header with per-record size 38 / 2 = 19, matching neither layout. -/
def exampleHeaderBad : SgaTocHeaderV2 := ⟨24, 1, 162, 1, 174, 2, 212, 5⟩

/-- A materialized drive with alias data and an empty materialized root, the
state a loaded single-drive archive presents to makedir. -/
def exampleDrive : SgaFsDriveV2 :=
  { name := ("Data").data
    driveAlias := ("data").data
    root := SgaFsNode.memFolder [] [] [] [] }

/-- A second drive with alias mods. -/
def exampleDrive2 : SgaFsDriveV2 :=
  { name := ("Mods").data
    driveAlias := ("mods").data
    root := SgaFsNode.memFolder [] [] [] [] }

/-- A filesystem with the single drive data. -/
def exampleFs : SgaFsV2 := { drives := [(("data").data, exampleDrive)] }

/-- A filesystem with two drives. -/
def exampleFs2 : SgaFsV2 :=
  { drives := [(("data").data, exampleDrive), (("mods").data, exampleDrive2)] }

/-- A materialized file holding the two bytes of "hi". -/
def exampleMemFile : SgaFsFileV2Mem where
  name := ("hello.txt").data
  storage_type := .store
  handleData := [104, 105]
  size := 2
  modified := none
  crc32 := 3632233996

/-- A lazy file over a TOC record with a resolved in-memory data header and a
two-byte payload. -/
def exampleLazyFile : SgaFsFileV2Lazy where
  name := ("hello.txt").data
  decompressed_size := 2
  compressed_size := 2
  storage_type := .store
  header := .mem { name := "hello.txt", crc32 := 3632233996, modified := 0 }
  payload := [104, 105]

/-! ## Helper lemmas -/

/-- The compressed-size accumulation loop computes the list sum. -/
theorem foldl_add_compressed (files : List SgaTocFileEntryV2) (n : Nat) :
    files.foldl (fun acc f => acc + f.compressed_size) n
      = n + (files.map (fun f => f.compressed_size)).sum := by
  induction files generalizing n with
  | nil => simp
  | cons f fs ih => simp [List.foldl_cons, ih, List.sum_cons]; omega

/-- Masking with 0xF0 extracts the second-lowest nibble in place. -/
theorem land_F0 (n : Nat) : n &&& 240 = n / 16 % 16 * 16 := by
  have h1 : n / 16 % 16 * 16 = ((n >>> 4) % 2 ^ 4) <<< 4 := by
    rw [Nat.shiftLeft_eq, Nat.shiftRight_eq_div_pow]
    norm_num
  rw [h1, show (240 : Nat) = (2 ^ 4 - 1) <<< 4 by decide]
  apply Nat.eq_of_testBit_eq
  intro i
  simp only [Nat.testBit_and, Nat.testBit_shiftLeft, Nat.testBit_mod_two_pow,
    Nat.testBit_shiftRight, Nat.testBit_two_pow_sub_one, ge_iff_le]
  by_cases h : 4 ≤ i
  · have e : 4 + (i - 4) = i := by omega
    simp [h, e]
    cases hb : n.testBit i <;> simp [hb]
  · simp [h]

/-- Bitwise or of a value with clear middle nibble and a shifted nibble is
plain addition. -/
theorem lor_nibble (a c t : Nat) (ha : a < 16) (ht : t < 16) :
    (a + 256 * c) ||| (t <<< 4) = a + 16 * t + 256 * c := by
  apply Nat.eq_of_testBit_eq
  intro i
  rw [Nat.testBit_lor]
  have ha8 : a < 2 ^ 8 := by omega
  have hta : 2 ^ 4 * t + a < 2 ^ 8 := by omega
  have e1 : a + 256 * c = 2 ^ 8 * c + a := by ring
  have e2 : a + 16 * t + 256 * c = 2 ^ 8 * c + (2 ^ 4 * t + a) := by ring
  rw [e1, e2, Nat.testBit_mul_pow_two_add c ha8 i,
    Nat.testBit_mul_pow_two_add c hta i,
    Nat.testBit_mul_pow_two_add t ha (i := 4) i]
  simp only [Nat.testBit_shiftLeft, ge_iff_le]
  rcases Nat.lt_or_ge i 4 with h4 | h4
  · have h8 : i < 8 := by omega
    simp [h8, h4, show ¬ 4 ≤ i by omega]
  · rcases Nat.lt_or_ge i 8 with h8 | h8
    · have haf : a.testBit i = false :=
        Nat.testBit_lt_two_pow (by
          calc a < 2 ^ 4 := by omega
          _ ≤ 2 ^ i := Nat.pow_le_pow_right (by norm_num) h4)
      simp [h8, h4, show ¬ i < 4 by omega, haf]
    · have htf : t.testBit (i - 4) = false :=
        Nat.testBit_lt_two_pow (by
          calc t < 2 ^ 4 := by omega
          _ ≤ 2 ^ (i - 4) := Nat.pow_le_pow_right (by norm_num) (by omega))
      simp [show ¬ i < 8 by omega, h4, htf]

/-- Every storage code is a nibble. -/
theorem StorageType.toNat_lt (t : StorageType) : t.toNat < 16 := by
  cases t <;> norm_num [StorageType.toNat]

/-- The setter written with mask and or, in plain arithmetic. -/
theorem set_storage_type_arith (flags : Nat) (t : StorageType) :
    set_storage_type flags t
      = flags % 16 + 16 * t.toNat + 256 * (flags / 256) := by
  unfold set_storage_type
  rw [show (0xF0 : Nat) = 240 from rfl, land_F0]
  have hsub : flags - flags / 16 % 16 * 16 = flags % 16 + 256 * (flags / 256) := by
    omega
  rw [hsub]
  exact lor_nibble (flags % 16) (flags / 256) t.toNat
    (Nat.mod_lt flags (by norm_num)) t.toNat_lt

/-- The enum constructor inverts toNat. -/
theorem StorageType.ofNat?_toNat (t : StorageType) :
    StorageType.ofNat? t.toNat = some t := by
  cases t <;> rfl

/-- A successful enum construction pins the code. -/
theorem StorageType.toNat_of_ofNat? (n : Nat) (t : StorageType)
    (h : StorageType.ofNat? n = some t) : t.toNat = n := by
  unfold StorageType.ofNat? at h
  split_ifs at h with h0 h1 h2
  · injection h with h; subst h; simp [StorageType.toNat, h0]
  · injection h with h; subst h; simp [StorageType.toNat, h1]
  · injection h with h; subst h; simp [StorageType.toNat, h2]

/-! ## Claim theorems -/

/-- C4: for every TOC file entry flags value (either dialect) and every storage
type t among STORE, DEFLATE_BUFFER and DEFLATE_STREAM, writing t and reading
back yields t, a successful read always returns (flags AND 0xF0) shifted right
by 4, and writing t leaves the low nibble of the flags field unchanged. -/
theorem c4_storage_type_roundtrip (flags : Nat) (t : StorageType) :
    storage_type (set_storage_type flags t) = some t
    ∧ (∀ st, storage_type flags = some st → st.toNat = (flags &&& 0xF0) >>> 4)
    ∧ set_storage_type flags t &&& 0xF = flags &&& 0xF := by
  refine ⟨?_, ?_, ?_⟩
  · unfold storage_type
    rw [set_storage_type_arith, show (0xF0 : Nat) = 240 from rfl, land_F0,
      Nat.shiftRight_eq_div_pow]
    have ht : t.toNat < 16 := t.toNat_lt
    have hm : flags % 16 < 16 := Nat.mod_lt flags (by norm_num)
    have hpow : (2 : Nat) ^ 4 = 16 := by norm_num
    rw [hpow]
    have hval : (flags % 16 + 16 * t.toNat + 256 * (flags / 256)) / 16 % 16 * 16 / 16
        = t.toNat := by omega
    rw [hval, StorageType.ofNat?_toNat]
  · intro st h
    unfold storage_type at h
    exact StorageType.toNat_of_ofNat? _ st h
  · rw [show (0xF : Nat) = 2 ^ 4 - 1 from rfl, Nat.and_pow_two_sub_one_eq_mod,
      Nat.and_pow_two_sub_one_eq_mod, set_storage_type_arith]
    have ht : t.toNat < 16 := t.toNat_lt
    have hpow : (2 : Nat) ^ 4 = 16 := by norm_num
    rw [hpow]
    omega

/-- C4 witness: the round trip, read formula and low-nibble preservation at
flags 42 and storage type DEFLATE_BUFFER / DEFLATE_STREAM. -/
theorem c4_storage_type_roundtrip_witness :
    storage_type (set_storage_type 42 .deflateBuffer) = some .deflateBuffer
    ∧ StorageType.toNat .deflateStream = (42 &&& 0xF0) >>> 4
    ∧ set_storage_type 42 .deflateBuffer &&& 0xF = 42 &&& 0xF :=
  ⟨(c4_storage_type_roundtrip 42 .deflateBuffer).1,
   (c4_storage_type_roundtrip 42 .deflateBuffer).2.1 .deflateStream (by decide),
   (c4_storage_type_roundtrip 42 .deflateBuffer).2.2⟩

/-- C10: the unix-timestamp serializer packs signed and unpacks unsigned, so a
value in [0, 2^31) round-trips to itself while a value in [-2^31, 0) comes
back as value + 2^32. -/
theorem c10_unix_time_roundtrip (v : Int) :
    (0 ≤ v → v < 2147483648 →
      (RelicUnixTimeSerializer.pack v).map
        (fun l => (RelicUnixTimeSerializer.unpack l : Int)) = .ok v)
    ∧ (-2147483648 ≤ v → v < 0 →
      (RelicUnixTimeSerializer.pack v).map
        (fun l => (RelicUnixTimeSerializer.unpack l : Int)) = .ok (v + 4294967296)) := by
  have key : ∀ (w : Int), -2147483648 ≤ w → w < 2147483648 →
      (RelicUnixTimeSerializer.pack w).map
        (fun l => (RelicUnixTimeSerializer.unpack l : Int))
        = .ok (((w % 4294967296).toNat : Nat) : Int) := by
    intro w hw1 hw2
    unfold RelicUnixTimeSerializer.pack
    rw [if_pos ⟨hw1, hw2⟩]
    have hunp : RelicUnixTimeSerializer.unpack
        [(w % 4294967296).toNat % 256, (w % 4294967296).toNat / 256 % 256,
         (w % 4294967296).toNat / 65536 % 256, (w % 4294967296).toNat / 16777216 % 256]
        = (w % 4294967296).toNat := by
      have hlt : (w % 4294967296).toNat < 4294967296 := by omega
      simp only [RelicUnixTimeSerializer.unpack, List.foldr]
      omega
    simp [Except.map, hunp]
  constructor
  · intro h1 h2
    rw [key v (by omega) h2]
    congr 1
    omega
  · intro h1 h2
    rw [key v h1 (by omega)]
    congr 1
    omega

/-- C10 witness: 5 round-trips to 5 and -5 comes back as -5 + 2^32. -/
theorem c10_unix_time_roundtrip_witness :
    (RelicUnixTimeSerializer.pack 5).map
      (fun l => (RelicUnixTimeSerializer.unpack l : Int)) = .ok 5
    ∧ (RelicUnixTimeSerializer.pack (-5)).map
      (fun l => (RelicUnixTimeSerializer.unpack l : Int)) = .ok (-5 + 4294967296) :=
  ⟨(c10_unix_time_roundtrip 5).1 (by norm_num) (by norm_num),
   (c10_unix_time_roundtrip (-5)).2 (by norm_num) (by norm_num)⟩

/-- C3: a parsed archive sets has_file_data_header iff the expected data size,
file count times 264 plus the sum of the compressed sizes, is at most the
data-window length, and has_safe_file_data_header iff it equals it. -/
theorem c3_data_header_flags (files : List SgaTocFileEntryV2) (data_pos data_end : Nat) :
    ((SgaFileV2_init_flags files data_pos data_end).has_file_data_header = true ↔
      ((files.length * 264 + (files.map (fun f => f.compressed_size)).sum : Nat) : Int)
        ≤ (data_end : Int) - (data_pos : Int))
    ∧ ((SgaFileV2_init_flags files data_pos data_end).has_safe_file_data_header = true ↔
      ((files.length * 264 + (files.map (fun f => f.compressed_size)).sum : Nat) : Int)
        = (data_end : Int) - (data_pos : Int)) := by
  have he : __determine_expected_data_window_size files
      = files.length * 264 + (files.map (fun f => f.compressed_size)).sum := by
    simp only [__determine_expected_data_window_size, dataHeaderSize,
      foldl_add_compressed]
    omega
  constructor <;> simp [SgaFileV2_init_flags, he]

set_option maxRecDepth 8192 in
/-- C2 counterexample: a header whose name field starts with the byte 1
decodes (ASCII) but is not printable, yet header_is_valid accepts it, so the
claimed validity predicate (which requires printable ASCII) disagrees with the
code; and a truly undecodable header (name byte 200) under an exact-size
data-header area is kept as the lazy header rather than synthesized. -/
theorem c2_header_validity_counterexample :
    ¬ (header_is_valid
        { nameBytes := 1 :: List.replicate 255 0, modifiedBytes := [0, 0, 0, 0],
          crcBytes := [0, 0, 0, 0] } = true
      ↔ claimedHeaderValidity
        { nameBytes := 1 :: List.replicate 255 0, modifiedBytes := [0, 0, 0, 0],
          crcBytes := [0, 0, 0, 0] } = true)
    ∧ header_is_valid
        { nameBytes := 200 :: List.replicate 255 0, modifiedBytes := [0, 0, 0, 0],
          crcBytes := [0, 0, 0, 0] } = false
    ∧ SgaTocFileDataV2Dow_init List.sum 7 "n" [9] true true
        { nameBytes := 200 :: List.replicate 255 0, modifiedBytes := [0, 0, 0, 0],
          crcBytes := [0, 0, 0, 0] }
      = .lazy
        { nameBytes := 200 :: List.replicate 255 0, modifiedBytes := [0, 0, 0, 0],
          crcBytes := [0, 0, 0, 0] } := by
  refine ⟨?_, ?_, ?_⟩ <;> decide

/-- C2 (amended): a per-file data header is judged valid iff its name field
decodes (the CRC32 and modified reads are total, so they never fail, and no
printable-ASCII condition is checked); and when the archive has a data-header
area that is not an exact size match, a file entry whose header fails the
check is recovered with a synthesized header carrying the TOC name, the crc32
of the payload and the current time. -/
theorem c2_header_validity_amended (h : LazySgaTocFileDataHeaderV2Dow)
    (crc32Hash : List Nat → Nat) (now : Nat) (tocName : String) (payload : List Nat) :
    (header_is_valid h = true ↔ (cstringDecodeAscii h.nameBytes).isSome = true)
    ∧ (header_is_valid h = false →
      SgaTocFileDataV2Dow_init crc32Hash now tocName payload true false h
        = .mem { name := tocName, crc32 := crc32Hash payload, modified := now }) := by
  constructor
  · unfold header_is_valid
    cases cstringDecodeAscii h.nameBytes <;> simp
  · intro hv
    simp [SgaTocFileDataV2Dow_init, hv]

/-- C2 witness: the amended claim at a concrete undecodable header. -/
theorem c2_header_validity_amended_witness :
    (header_is_valid
        { nameBytes := [200], modifiedBytes := [0, 0, 0, 0], crcBytes := [0, 0, 0, 0] }
          = true
      ↔ (cstringDecodeAscii [200]).isSome = true)
    ∧ SgaTocFileDataV2Dow_init List.sum 7 "a" [9] true false
        { nameBytes := [200], modifiedBytes := [0, 0, 0, 0], crcBytes := [0, 0, 0, 0] }
      = .mem { name := "a", crc32 := 9, modified := 7 } :=
  ⟨(c2_header_validity_amended
      { nameBytes := [200], modifiedBytes := [0, 0, 0, 0], crcBytes := [0, 0, 0, 0] }
      List.sum 7 "a" [9]).1,
   (c2_header_validity_amended
      { nameBytes := [200], modifiedBytes := [0, 0, 0, 0], crcBytes := [0, 0, 0, 0] }
      List.sum 7 "a" [9]).2 (by decide)⟩

/-- C1: dialect detection returns Unknown when the TOC file count is 0;
otherwise, with the file block running from the file sub-area start to the
next sub-area start (or the TOC end), it returns Dawn of War when the
quotient block size / file count is 20, Impossible Creatures when it is 17,
and fails with the unknown-dialect error for every other quotient. -/
theorem c1_determine_game_dialect (header : SgaTocHeaderV2) (toc_end : Nat) :
    (header.fileCount = 0 → _determine_game header toc_end = .ok .Unknown)
    ∧ (header.fileCount ≠ 0 →
        (file_def_size header toc_end = 20 →
          _determine_game header toc_end = .ok .DawnOfWar)
        ∧ (file_def_size header toc_end = 17 →
          _determine_game header toc_end = .ok .ImpossibleCreatures)
        ∧ (file_def_size header toc_end ≠ 20 → file_def_size header toc_end ≠ 17 →
          _determine_game header toc_end = .error .unknownDialect)) := by
  constructor
  · intro h0
    simp [_determine_game, h0]
  · intro h0
    refine ⟨fun h20 => ?_, fun h17 => ?_, fun h20 h17 => ?_⟩
    · simp [_determine_game, h0, h20]
    · have hne : file_def_size header toc_end ≠ 20 := by
        rw [h17]; norm_num
      simp [_determine_game, h0, h17, hne]
    · simp [_determine_game, h0, h20, h17]

/-- C1 witness: the four dispatch outcomes at concrete headers (per-record
sizes 20, 17, an empty file table, and 19). -/
theorem c1_determine_game_dialect_witness :
    _determine_game exampleHeaderDow 300 = .ok .DawnOfWar
    ∧ _determine_game exampleHeaderIC 300 = .ok .ImpossibleCreatures
    ∧ _determine_game exampleHeaderEmpty 300 = .ok .Unknown
    ∧ _determine_game exampleHeaderBad 300 = .error .unknownDialect := by
  have hDow : file_def_size exampleHeaderDow 300 = 20 := by
    unfold file_def_size
    rw [show _determine_next_header_block_ptr exampleHeaderDow 300
        ((exampleHeaderDow.filePos : Int)) = 214 from by decide]
    norm_num [exampleHeaderDow]
  have hIC : file_def_size exampleHeaderIC 300 = 17 := by
    unfold file_def_size
    rw [show _determine_next_header_block_ptr exampleHeaderIC 300
        ((exampleHeaderIC.filePos : Int)) = 208 from by decide]
    norm_num [exampleHeaderIC]
  have hBad : file_def_size exampleHeaderBad 300 = 19 := by
    unfold file_def_size
    rw [show _determine_next_header_block_ptr exampleHeaderBad 300
        ((exampleHeaderBad.filePos : Int)) = 212 from by decide]
    norm_num [exampleHeaderBad]
  refine ⟨?_, ?_, ?_, ?_⟩
  · exact ((c1_determine_game_dialect exampleHeaderDow 300).2 (by decide)).1 hDow
  · exact ((c1_determine_game_dialect exampleHeaderIC 300).2 (by decide)).2.1 hIC
  · exact (c1_determine_game_dialect exampleHeaderEmpty 300).1 (by decide)
  · exact ((c1_determine_game_dialect exampleHeaderBad 300).2 (by decide)).2.2
      (by rw [hBad]; norm_num) (by rw [hBad]; norm_num)

/-- C5: the wrapper setinfo of a file node never returns: after promotion it
re-enters itself instead of delegating to the backing, so for every stack
budget the call ends in an exception (RecursionError once the stack is
exhausted on an in-memory backing, TypeError from the promotion getinfo on a
lazy one) and never updates the backing. -/
theorem c5_setinfo_never_returns (crc32Hash : List Nat → Nat) (now : Int)
    (fuel : Nat) (f : SgaFsFileV2) (info : InfoMapping) :
    ∃ e, SgaFsFileV2.setinfo crc32Hash now fuel f info = .error e := by
  induction fuel generalizing f with
  | zero => exact ⟨.recursionError, rfl⟩
  | succ n ih =>
    cases f with
    | mem b =>
      obtain ⟨e, he⟩ := ih (.mem b)
      exact ⟨e, he⟩
    | lazy b =>
      exact ⟨.typeError, rfl⟩

/-- C6: SgaFsFolderV2Mem add_folder routes its alt-lookup insert through the
files map: a first folder child lands in children and files (and not in
folders), and a second folder of the same name collides as FileExists rather
than DirectoryExists. -/
theorem c6_add_folder_files_map_bug :
    SgaFsFolderV2.add_folder (.memFolder [] [] [] []) (.memFolder ['x'] [] [] [])
      = .ok (.memFolder [] [(['x'], .memFolder ['x'] [] [] [])] []
          [(['x'], .memFolder ['x'] [] [] [])])
    ∧ SgaFsFolderV2.add_folder
        (.memFolder [] [(['x'], .memFolder ['x'] [] [] [])] []
          [(['x'], .memFolder ['x'] [] [] [])])
        (.memFolder ['x'] [] [] [])
      = .error .fileExists
    ∧ (SgaFsNode.memFolder [] [(['x'], .memFolder ['x'] [] [] [])] []
        [(['x'], .memFolder ['x'] [] [] [])]).foldersList = []
    ∧ (SgaFsNode.memFolder [] [(['x'], .memFolder ['x'] [] [] [])] []
        [(['x'], .memFolder ['x'] [] [] [])]).filesList
      = [.memFolder ['x'] [] [] []] :=
  ⟨rfl, rfl, rfl, rfl⟩

/-- C7: makedir raises on every branch of the claim: for a folder path the
parent lookup fails with ResourceNotFound (the alias is passed to build
positionally and dropped, and the drive walk treats the root marker as a
child name), and for a bare drive root the SgaFsDriveV2Mem constructor raises
RelicToolError (with or without recreate) before any drive is registered. -/
theorem c7_makedir_bug :
    SgaFsV2.makedir exampleFs (("data:/x").data) false
      = (exampleFs, .error .resourceNotFound)
    ∧ SgaFsV2.makedir { drives := [] } (("data:/").data) false
      = ({ drives := [] }, .error .relicToolError)
    ∧ SgaFsV2.makedir exampleFs (("data:/").data) true
      = (exampleFs, .error .relicToolError) :=
  ⟨rfl, rfl, rfl⟩

/-- C8: makedirs never creates intermediate folders - the method only resolves
the drive root and returns: with an alias and recreate it dies in the drive
branch of makedir (RelicToolError), with a single drive and no alias the
opendir of the drive root fails with ResourceNotFound, and the no-drive and
several-drive cases raise OperationFailed and InvalidPath; in every case the
filesystem is left unchanged, with the requested folders never created. -/
theorem c8_makedirs_bug :
    SgaFsV2.makedirs exampleFs (("data:/a/b").data) true
      = (exampleFs, .error .relicToolError)
    ∧ SgaFsV2.makedirs exampleFs (("/a").data) false
      = (exampleFs, .error .resourceNotFound)
    ∧ SgaFsV2.makedirs exampleFs2 (("/a").data) false
      = (exampleFs2, .error .invalidPath)
    ∧ SgaFsV2.makedirs { drives := [] } (("/a").data) false
      = ({ drives := [] }, .error .operationFailed) :=
  ⟨rfl, rfl, rfl, rfl⟩

/-- C9: getinfo with the details namespace crashes on both file node kinds
instead of returning the size: the in-memory branch passes the missing
BytesIO name attribute as the size (AttributeError), and the lazy branch
calls the value of the header property (TypeError). -/
theorem c9_getinfo_details_crash :
    SgaFsFileV2.getinfo (.mem exampleMemFile) ["details"] = .error .attributeError
    ∧ SgaFsFileV2.getinfo (.lazy exampleLazyFile) ["details"] = .error .typeError :=
  ⟨rfl, rfl⟩
